import Mathlib

set_option maxRecDepth 100000

/-!
Verification development for the SurfBeam2 modem monitor (SurfBeam2.h /
SurfBeam2.cpp).  The C++ code polls two CGI pages of a ViaSat SurfBeam 2
satellite modem, splits each response on the delimiter "##", decodes the
positional fields into two records (`ModemInfo`, `TriaInfo`), and derives
display percentages from the raw telemetry.

The embedding below models:
  * the Qt string primitives actually used by the code
    (`QString::split`, `QString::remove(QChar)`, `QString::toULongLong`,
    `QString::toUShort`, `QString::toULong`, `QString::toDouble`,
    `QString::contains(.., Qt::CaseInsensitive)`);
  * the two records and the per-index decoders `updateModemInfo` /
    `updateTriaInfo`;
  * the response handlers `httpFinishedModem` / `httpFinishedTria`;
  * the derived-metric percent functions (exact rational arithmetic in
    place of C++ `double`; all the coefficients are decimal literals, so
    they are exact in `ℚ`);
  * the dBm→Watts conversion and power string rendering over `ℝ`;
  * an event-trace semantics of the polling pipeline (timer ticks,
    readyRead deliveries, finished signals) for the staleness property.

C++ machine integers are modeled as `Nat` with explicit `% 2^w`
truncation at the points where the code narrows a value (`toUShort`
result stored into a `uint8_t` field, `toULongLong`/`toULong` results
stored into `uint32_t` fields).
-/

/-! ## Qt string primitives -/

/-- Lower-case a list of characters (ASCII case folding, which is what the
keyword comparisons in the code need: every keyword is plain ASCII). -/
def lowerChars (l : List Char) : List Char :=
  l.map Char.toLower

/-- ASCII lower-casing of a string. -/
def strToLower (s : String) : String :=
  String.mk (lowerChars s.data)

/-- Does `hay` start with `needle`? -/
def startsWithChars : List Char → List Char → Bool
  | _, [] => true
  | [], _ :: _ => false
  | a :: as, b :: bs => a = b && startsWithChars as bs

/-- Does the haystack contain `needle` as a contiguous substring? -/
def hasSubChars (needle : List Char) : List Char → Bool
  | [] => startsWithChars [] needle
  | c :: t => startsWithChars (c :: t) needle || hasSubChars needle t

/-- Model of `QString::contains(pat, Qt::CaseInsensitive)`. -/
def qContainsCI (s : String) (pat : String) : Bool :=
  hasSubChars (lowerChars pat.data) (lowerChars s.data)

/-- Model of `QString::remove(QChar)`: removes every occurrence of the
character (the C++ code calls this with `','` and `'%'`). -/
def qRemoveChar (c : Char) (s : String) : String :=
  String.mk (s.data.filter (fun d => d ≠ c))

/-- Model of `QString::split("##")` with the default `KeepEmptyParts`
behavior: non-overlapping left-to-right scan for the two-character
delimiter; an empty input yields one empty field. -/
def splitFieldsAux : List Char → List Char → List String
  | acc, [] => [String.mk acc.reverse]
  | acc, '#' :: '#' :: rest => String.mk acc.reverse :: splitFieldsAux [] rest
  | acc, c :: rest => splitFieldsAux (c :: acc) rest

/-- Split a raw CGI response on the field delimiter `"##"`. -/
def splitFields (s : String) : List String :=
  splitFieldsAux [] s.data

/-! ## Qt numeric conversions

All the `QString::toXxx` conversions used by the code are called without
an `ok` out-parameter, so a failed conversion silently yields `0`. -/

/-- Accumulator loop for `parseNatDigits`. -/
def parseNatDigitsGo : List Char → Nat → Option Nat
  | [], acc => some acc
  | c :: t, acc =>
    if c.isDigit then parseNatDigitsGo t (acc * 10 + (c.toNat - '0'.toNat)) else none

/-- Parse a non-empty run of decimal digits; `none` on any other input. -/
def parseNatDigits : List Char → Option Nat
  | [] => none
  | l => parseNatDigitsGo l 0

/-- Digits with an optional leading `'+'` sign (the C-locale unsigned
conversions accept a plus sign but no minus sign). -/
def parseUnsigned (l : List Char) : Option Nat :=
  match l with
  | '+' :: t => parseNatDigits t
  | _ => parseNatDigits l

/-- Model of `QString::toULongLong()` (no `ok` pointer): value of the
decimal string, or `0` on a malformed or out-of-range input. -/
def qtToULongLong (s : String) : Nat :=
  match parseUnsigned s.data with
  | some n => if n < 2 ^ 64 then n else 0
  | none => 0

/-- Model of `QString::toUShort()` (no `ok` pointer): `0` on a malformed
or out-of-range input. -/
def qtToUShort (s : String) : Nat :=
  match parseUnsigned s.data with
  | some n => if n < 2 ^ 16 then n else 0
  | none => 0

/-- Model of `QString::toULong()` (no `ok` pointer).  On the LP64
platforms the code targets, `unsigned long` is 64-bit wide. -/
def qtToULong (s : String) : Nat :=
  match parseUnsigned s.data with
  | some n => if n < 2 ^ 64 then n else 0
  | none => 0

/-- Parse an optional-sign decimal-fraction number `[+|-]ddd[.ddd]` as an
exact rational; at least one digit must be present on one side of the
point.  Models the C-locale `QString::toDouble()` on the plain decimal
telemetry values the modem emits (the exponent forms that Qt would also
accept do not occur in this protocol); `0` on a malformed input. -/
def parseDecimalCore (l : List Char) : Option ℚ :=
  let intPart := l.takeWhile Char.isDigit
  let rest := l.dropWhile Char.isDigit
  match rest with
  | [] => if intPart.isEmpty then none else
      match parseNatDigits intPart with
      | some n => some (mkRat (Int.ofNat n) 1)
      | none => none
  | '.' :: fracChars =>
      if fracChars.all Char.isDigit ∧ ¬ (intPart.isEmpty ∧ fracChars.isEmpty) then
        let ip : Nat := (parseNatDigits intPart).getD 0
        let fp : Nat := (parseNatDigits fracChars).getD 0
        some (mkRat (Int.ofNat (ip * 10 ^ fracChars.length + fp)) (10 ^ fracChars.length))
      else none
  | _ => none

/-- Model of `QString::toDouble()` (no `ok` pointer): exact rational
value of the decimal string, or `0` on a malformed input. -/
def qtToDouble (s : String) : ℚ :=
  match s.data with
  | '-' :: t => match parseDecimalCore t with
      | some q => -q
      | none => 0
  | '+' :: t => (parseDecimalCore t).getD 0
  | l => (parseDecimalCore l).getD 0

/-! ## Enumerations and records (SurfBeam2.h) -/

/-- The `enum ModemState` of SurfBeam2.h. -/
inductive ModemState
  | MODEM_STATE_UNKNOWN
  | MODEM_STATE_SCANNING
  | MODEM_STATE_RANGING
  | MODEM_STATE_NETWORK_ENTRY
  | MODEM_STATE_DHCP
  | MODEM_STATE_ONLINE
  deriving DecidableEq, Repr

/-- The `enum SatelliteStatusBeamColor` of SurfBeam2.h. -/
inductive SatelliteStatusBeamColor
  | SATELLITE_STATUS_BEAM_COLOR_UNKNOWN
  | SATELLITE_STATUS_BEAM_COLOR_BLUE
  | SATELLITE_STATUS_BEAM_COLOR_ORANGE
  | SATELLITE_STATUS_BEAM_COLOR_PURPLE
  | SATELLITE_STATUS_BEAM_COLOR_GREEN
  deriving DecidableEq, Repr

/-- The `ModemInfo` struct of SurfBeam2.h.  `double` fields are modeled
as exact rationals, the unsigned integer fields as `Nat` (their decoders
guarantee the C++ value range, with explicit truncation where the code
narrows). -/
structure ModemInfo where
  IpAddress : String
  MacAddress : String
  SwVersion : String
  HwVersion : String
  ModemStatusLabel : String
  TxPackets : Nat
  TxBytes : Nat
  RxPackets : Nat
  RxBytes : Nat
  OnlineTime : String
  LossOfSyncCount : Nat
  RxSnrDb : ℚ
  RxSnrPercent : Nat
  SerialNumber : String
  RxPwrDbm : ℚ
  RxPwrPercent : Nat
  CableResistanceOhm : ℚ
  CableResistancePercent : Nat
  OutdoorUnitTelemetryStatus : String
  CableAttenuationDb : ℚ
  CableAttenuationPercent : Nat
  InterFacilityLinkType : String
  PartNr : String
  ModemStatus : ModemState
  SatStatusBeamColor : SatelliteStatusBeamColor
  ClientSideProxyStatus : String
  ClientSideProxyHealth : String
  LastPageLoadDuration : String
  UplinkSymbolRate : Nat
  BeamDataTableVersion : String
  Vendor : String
  DownlinkSymbolRate : Nat
  DownlinkModulation : String
  deriving DecidableEq, Repr

/-- The `TriaInfo` struct of SurfBeam2.h. -/
structure TriaInfo where
  PwrMode : String
  PolarizationType : String
  TxIfPwrDbm : ℚ
  InterFacilityLinkType : String
  TemperatureCelsius : ℚ
  SerialNumber : String
  TxRfPwrDbm : ℚ
  FwVersion : String
  TxIfPwrPercent : Nat
  TxRfPwrPercent : Nat
  SatStatusBeamColor : SatelliteStatusBeamColor
  Vendor : String
  deriving DecidableEq, Repr

/-- A zero/empty `ModemInfo` (the records start empty at startup). -/
def initModemInfo : ModemInfo :=
  { IpAddress := "", MacAddress := "", SwVersion := "", HwVersion := ""
    ModemStatusLabel := "", TxPackets := 0, TxBytes := 0, RxPackets := 0
    RxBytes := 0, OnlineTime := "", LossOfSyncCount := 0, RxSnrDb := 0
    RxSnrPercent := 0, SerialNumber := "", RxPwrDbm := 0, RxPwrPercent := 0
    CableResistanceOhm := 0, CableResistancePercent := 0
    OutdoorUnitTelemetryStatus := "", CableAttenuationDb := 0
    CableAttenuationPercent := 0, InterFacilityLinkType := "", PartNr := ""
    ModemStatus := ModemState.MODEM_STATE_UNKNOWN
    SatStatusBeamColor := SatelliteStatusBeamColor.SATELLITE_STATUS_BEAM_COLOR_UNKNOWN
    ClientSideProxyStatus := "", ClientSideProxyHealth := ""
    LastPageLoadDuration := "", UplinkSymbolRate := 0
    BeamDataTableVersion := "", Vendor := "", DownlinkSymbolRate := 0
    DownlinkModulation := "" }

/-- A zero/empty `TriaInfo`. -/
def initTriaInfo : TriaInfo :=
  { PwrMode := "", PolarizationType := "", TxIfPwrDbm := 0
    InterFacilityLinkType := "", TemperatureCelsius := 0, SerialNumber := ""
    TxRfPwrDbm := 0, FwVersion := "", TxIfPwrPercent := 0, TxRfPwrPercent := 0
    SatStatusBeamColor := SatelliteStatusBeamColor.SATELLITE_STATUS_BEAM_COLOR_UNKNOWN
    Vendor := "" }

/-! ## Field decoders (SurfBeam2.cpp updateModemInfo / updateTriaInfo) -/

/-- The `MODEM_INDEX_MODEM_STATUS` case of `updateModemInfo`: ordered
case-insensitive substring matching. -/
def decodeModemStatus (stateString : String) : ModemState :=
  if qContainsCI stateString "scanning" then ModemState.MODEM_STATE_SCANNING
  else if qContainsCI stateString "ranging" then ModemState.MODEM_STATE_RANGING
  else if qContainsCI stateString "network" then ModemState.MODEM_STATE_NETWORK_ENTRY
  else if qContainsCI stateString "dhcp" then ModemState.MODEM_STATE_DHCP
  else if qContainsCI stateString "online" then ModemState.MODEM_STATE_ONLINE
  else ModemState.MODEM_STATE_UNKNOWN

/-- The `MODEM_INDEX_SATELLITE_STATUS` / `TRIA_INDEX_SATELLITE_STATUS`
cases: ordered case-insensitive substring matching of the beam color. -/
def decodeBeamColor (beamColorString : String) : SatelliteStatusBeamColor :=
  if qContainsCI beamColorString "blue" then
    SatelliteStatusBeamColor.SATELLITE_STATUS_BEAM_COLOR_BLUE
  else if qContainsCI beamColorString "orange" then
    SatelliteStatusBeamColor.SATELLITE_STATUS_BEAM_COLOR_ORANGE
  else if qContainsCI beamColorString "purple" then
    SatelliteStatusBeamColor.SATELLITE_STATUS_BEAM_COLOR_PURPLE
  else if qContainsCI beamColorString "green" then
    SatelliteStatusBeamColor.SATELLITE_STATUS_BEAM_COLOR_GREEN
  else SatelliteStatusBeamColor.SATELLITE_STATUS_BEAM_COLOR_UNKNOWN

/-- One iteration of the `switch( i )` in `updateModemInfo`: field `s` at
index `i` updates the record.  Unlisted indices fall through to the
`default:` case and leave the record unchanged.  The `% 2 ^ 8` and
`% 2 ^ 32` factors model the implicit narrowing conversions when the
`unsigned short` / `unsigned long long` / `unsigned long` conversion
results are stored into the `uint8_t` / `uint32_t` struct members. -/
def updateModemField (m : ModemInfo) (i : Nat) (s : String) : ModemInfo :=
  if i = 0 then { m with IpAddress := s }
  else if i = 1 then { m with MacAddress := s }
  else if i = 2 then { m with SwVersion := s }
  else if i = 3 then { m with HwVersion := s }
  else if i = 4 then { m with ModemStatusLabel := s }
  else if i = 5 then { m with RxPackets := qtToULongLong (qRemoveChar ',' s) }
  else if i = 6 then { m with RxBytes := qtToULongLong (qRemoveChar ',' s) }
  else if i = 7 then { m with TxPackets := qtToULongLong (qRemoveChar ',' s) }
  else if i = 8 then { m with TxBytes := qtToULongLong (qRemoveChar ',' s) }
  else if i = 9 then { m with OnlineTime := s }
  else if i = 10 then { m with LossOfSyncCount := qtToULongLong s % 2 ^ 32 }
  else if i = 11 then { m with RxSnrDb := qtToDouble s }
  else if i = 12 then { m with RxSnrPercent := qtToUShort (qRemoveChar '%' s) % 2 ^ 8 }
  else if i = 13 then { m with SerialNumber := s }
  else if i = 14 then { m with RxPwrDbm := qtToDouble s }
  else if i = 15 then { m with RxPwrPercent := qtToUShort (qRemoveChar '%' s) % 2 ^ 8 }
  else if i = 16 then { m with CableResistanceOhm := qtToDouble s }
  else if i = 17 then { m with CableResistancePercent := qtToUShort (qRemoveChar '%' s) % 2 ^ 8 }
  else if i = 18 then { m with OutdoorUnitTelemetryStatus := s }
  else if i = 19 then { m with CableAttenuationDb := qtToDouble s }
  else if i = 20 then { m with CableAttenuationPercent := qtToUShort (qRemoveChar '%' s) % 2 ^ 8 }
  else if i = 21 then { m with InterFacilityLinkType := s }
  else if i = 22 then { m with PartNr := s }
  else if i = 23 then { m with ModemStatus := decodeModemStatus s }
  else if i = 24 then { m with SatStatusBeamColor := decodeBeamColor s }
  else if i = 26 then { m with ClientSideProxyStatus := s }
  else if i = 27 then { m with ClientSideProxyHealth := s }
  else if i = 30 then { m with LastPageLoadDuration := s }
  else if i = 32 then { m with UplinkSymbolRate := qtToULong s % 2 ^ 32 }
  else if i = 40 then { m with BeamDataTableVersion := s }
  else if i = 46 then { m with Vendor := s }
  else if i = 50 then { m with DownlinkSymbolRate := qtToULong s % 2 ^ 32 }
  else if i = 51 then { m with DownlinkModulation := s }
  else m

/-- The `for( int i = 0; i < mModemRawStringsList.size(); i++ )` loop of
`updateModemInfo`, starting at index `i`. -/
def updateModemInfoAux : ModemInfo → Nat → List String → ModemInfo
  | m, _, [] => m
  | m, i, s :: rest => updateModemInfoAux (updateModemField m i s) (i + 1) rest

/-- Model of `SurfBeam2::updateModemInfo`, as a function of the previous record
and the raw strings list. -/
def updateModemInfo (m : ModemInfo) (l : List String) : ModemInfo :=
  updateModemInfoAux m 0 l

/-- One iteration of the `switch( i )` in `updateTriaInfo`. -/
def updateTriaField (t : TriaInfo) (i : Nat) (s : String) : TriaInfo :=
  if i = 4 then { t with PwrMode := s }
  else if i = 5 then { t with PolarizationType := s }
  else if i = 7 then { t with TxIfPwrDbm := qtToDouble s }
  else if i = 9 then { t with InterFacilityLinkType := s }
  else if i = 10 then { t with TemperatureCelsius := qtToDouble s }
  else if i = 16 then { t with SerialNumber := s }
  else if i = 17 then { t with TxRfPwrDbm := qtToDouble s }
  else if i = 24 then { t with FwVersion := s }
  else if i = 25 then { t with TxIfPwrPercent := qtToUShort (qRemoveChar '%' s) % 2 ^ 8 }
  else if i = 26 then { t with TxRfPwrPercent := qtToUShort (qRemoveChar '%' s) % 2 ^ 8 }
  else if i = 29 then { t with SatStatusBeamColor := decodeBeamColor s }
  else if i = 81 then { t with Vendor := s }
  else t

/-- The index loop of `updateTriaInfo`. -/
def updateTriaInfoAux : TriaInfo → Nat → List String → TriaInfo
  | t, _, [] => t
  | t, i, s :: rest => updateTriaInfoAux (updateTriaField t i s) (i + 1) rest

/-- Model of `SurfBeam2::updateTriaInfo`. -/
def updateTriaInfo (t : TriaInfo) (l : List String) : TriaInfo :=
  updateTriaInfoAux t 0 l

/-- The constant `FIELD_COUNT_MODEM` of SurfBeam2.h. -/
def FIELD_COUNT_MODEM : Nat := 81

/-- The constant `FIELD_COUNT_TRIA` of SurfBeam2.h. -/
def FIELD_COUNT_TRIA : Nat := 84

/-- Model of `SurfBeam2::httpFinishedModem` restricted to its effect on the modem
record: split the accumulated byte array on `"##"`; only when the field
count equals `FIELD_COUNT_MODEM` is `updateModemInfo` invoked (the
`updateContent` call and the reply bookkeeping touch only the UI and the
network objects). -/
def httpFinishedModem (old : ModemInfo) (raw : String) : ModemInfo :=
  let fields := splitFields raw
  if fields.length = FIELD_COUNT_MODEM then updateModemInfo old fields else old

/-- Model of `SurfBeam2::httpFinishedTria` restricted to its effect on the TRIA
record. -/
def httpFinishedTria (old : TriaInfo) (raw : String) : TriaInfo :=
  let fields := splitFields raw
  if fields.length = FIELD_COUNT_TRIA then updateTriaInfo old fields else old

example : splitFields "a##b" = ["a", "b"] := by decide
example : splitFields "" = [""] := by decide
example : splitFields "###" = ["", "#"] := by decide
example : qtToULongLong "1,234" = 0 := by decide
example : qtToULongLong (qRemoveChar ',' "1,234") = 1234 := by decide
example : qtToUShort "300" = 300 := by decide
example : qtToDouble "-3.5" = mkRat (-7) 2 := by decide
example : qContainsCI "He went ONLINE" "online" = true := by decide
example : decodeModemStatus "OnLiNe" = ModemState.MODEM_STATE_ONLINE := by decide

/-! ## Derived-metric calculator (SurfBeam2.cpp lines 154-247)

The five percent functions take and return C++ `double`s; they are
modeled over `ℚ`, where every coefficient (a finite decimal literal) is
exact. -/

/-- Model of `SurfBeam2::getCableAttenuationPercent`. -/
def getCableAttenuationPercent (aCableAttenuationDb : ℚ) : ℚ :=
  if 0 ≤ aCableAttenuationDb then aCableAttenuationDb * 6.66666 else 0

/-- Model of `SurfBeam2::getRxPwrPercent`. -/
def getRxPwrPercent (aRxPwrDbm : ℚ) : ℚ :=
  if -72.586 ≤ aRxPwrDbm then 119.42208 + aRxPwrDbm * 1.64524 else 0

/-- Model of `SurfBeam2::getRxSnrPercent`. -/
def getRxSnrPercent (aRxSnrDb : ℚ) : ℚ :=
  if -3.0 ≤ aRxSnrDb then 10.71429 + aRxSnrDb * 3.57143 else 0

/-- Model of `SurfBeam2::getTxIfPwrPercent`. -/
def getTxIfPwrPercent (aTxIfPwrDbm : ℚ) : ℚ :=
  if -35.5 ≤ aTxIfPwrDbm then 137.86408 + aTxIfPwrDbm * 3.8835 else 0

/-- Model of `SurfBeam2::getTxRfPwrPercent`. -/
def getTxRfPwrPercent (aTxRfPwrDbm : ℚ) : ℚ :=
  if 14.5 ≤ aTxRfPwrDbm then -56.31068 + aTxRfPwrDbm * 3.8835 else 0

/-- C3: each of the five derived-metric percent functions returns, for
every input at or above its knee (0.0, -72.586, -3.0, -35.5, 14.5),
exactly the documented linear formula with the documented coefficients,
and returns 0 for every input below the knee. -/
theorem percent_functions_piecewise_linear (x : ℚ) :
    (0 ≤ x → getCableAttenuationPercent x = x * 6.66666) ∧
    (x < 0 → getCableAttenuationPercent x = 0) ∧
    (-72.586 ≤ x → getRxPwrPercent x = 119.42208 + x * 1.64524) ∧
    (x < -72.586 → getRxPwrPercent x = 0) ∧
    (-3.0 ≤ x → getRxSnrPercent x = 10.71429 + x * 3.57143) ∧
    (x < -3.0 → getRxSnrPercent x = 0) ∧
    (-35.5 ≤ x → getTxIfPwrPercent x = 137.86408 + x * 3.8835) ∧
    (x < -35.5 → getTxIfPwrPercent x = 0) ∧
    (14.5 ≤ x → getTxRfPwrPercent x = -56.31068 + x * 3.8835) ∧
    (x < 14.5 → getTxRfPwrPercent x = 0) := by
  refine ⟨fun h => ?_, fun h => ?_, fun h => ?_, fun h => ?_, fun h => ?_,
    fun h => ?_, fun h => ?_, fun h => ?_, fun h => ?_, fun h => ?_⟩ <;>
    simp only [getCableAttenuationPercent, getRxPwrPercent, getRxSnrPercent,
      getTxIfPwrPercent, getTxRfPwrPercent] <;>
    first
      | exact if_pos h
      | exact if_neg (not_le.mpr h)

/-- Closed-instance witness for `percent_functions_piecewise_linear`. -/
theorem percent_functions_piecewise_linear_witness :
    getCableAttenuationPercent 3 = 3 * 6.66666 ∧
    getCableAttenuationPercent (-1) = 0 ∧
    getRxPwrPercent (-50) = 119.42208 + (-50) * 1.64524 ∧
    getRxPwrPercent (-80) = 0 ∧
    getRxSnrPercent 10 = 10.71429 + 10 * 3.57143 ∧
    getRxSnrPercent (-5) = 0 ∧
    getTxIfPwrPercent (-20) = 137.86408 + (-20) * 3.8835 ∧
    getTxIfPwrPercent (-40) = 0 ∧
    getTxRfPwrPercent 20 = -56.31068 + 20 * 3.8835 ∧
    getTxRfPwrPercent 10 = 0 :=
  ⟨(percent_functions_piecewise_linear 3).1 (by norm_num),
   (percent_functions_piecewise_linear (-1)).2.1 (by norm_num),
   (percent_functions_piecewise_linear (-50)).2.2.1 (by norm_num),
   (percent_functions_piecewise_linear (-80)).2.2.2.1 (by norm_num),
   (percent_functions_piecewise_linear 10).2.2.2.2.1 (by norm_num),
   (percent_functions_piecewise_linear (-5)).2.2.2.2.2.1 (by norm_num),
   (percent_functions_piecewise_linear (-20)).2.2.2.2.2.2.1 (by norm_num),
   (percent_functions_piecewise_linear (-40)).2.2.2.2.2.2.2.1 (by norm_num),
   (percent_functions_piecewise_linear 20).2.2.2.2.2.2.2.2.1 (by norm_num),
   (percent_functions_piecewise_linear 10).2.2.2.2.2.2.2.2.2 (by norm_num)⟩

/-- C4 counterexample: the claim asserts both that every percent formula
returns exactly 0 at the knee and that `getRxSnrPercent(-3.0) ==
10.71429` within `1e-3`.  On the code, the knee input takes the formula
branch: `getRxSnrPercent(-3.0) = 10.71429 - 3*3.57143 = 0`, which is not
within `1e-3` of `10.71429`; and `getTxIfPwrPercent(-35.5) =
137.86408 - 35.5*3.8835 = -0.00017 ≠ 0` at its knee. -/
theorem percent_at_knee_counterexample :
    ¬ |getRxSnrPercent (-3.0) - 10.71429| ≤ 1e-3 ∧
    getTxIfPwrPercent (-35.5) ≠ 0 := by
  constructor
  · have h0 : getRxSnrPercent (-3.0) = 0 := by unfold getRxSnrPercent; norm_num
    rw [h0, not_le, zero_sub, abs_neg,
      abs_of_nonneg (by norm_num : (0 : ℚ) ≤ 10.71429)]
    norm_num
  · unfold getTxIfPwrPercent
    norm_num

/-- C4 (amended): every percent formula is monotonic non-decreasing in
its input at and above its knee, and returns 0 strictly below the knee;
at the knee itself the formula value is returned (which is exactly 0 for
`getRxSnrPercent`: `getRxSnrPercent(-3.0) = 0`, not `10.71429`); and
`getRxSnrPercent(10.0) = 46.42859` is within `1e-3` of `46.4286`. -/
theorem percent_monotone_above_knee (x y : ℚ) :
    (0 ≤ x → x ≤ y → getCableAttenuationPercent x ≤ getCableAttenuationPercent y) ∧
    (-72.586 ≤ x → x ≤ y → getRxPwrPercent x ≤ getRxPwrPercent y) ∧
    (-3.0 ≤ x → x ≤ y → getRxSnrPercent x ≤ getRxSnrPercent y) ∧
    (-35.5 ≤ x → x ≤ y → getTxIfPwrPercent x ≤ getTxIfPwrPercent y) ∧
    (14.5 ≤ x → x ≤ y → getTxRfPwrPercent x ≤ getTxRfPwrPercent y) ∧
    (x < 0 → getCableAttenuationPercent x = 0) ∧
    (x < -72.586 → getRxPwrPercent x = 0) ∧
    (x < -3.0 → getRxSnrPercent x = 0) ∧
    (x < -35.5 → getTxIfPwrPercent x = 0) ∧
    (x < 14.5 → getTxRfPwrPercent x = 0) ∧
    getRxSnrPercent (-3.0) = 0 ∧
    |getRxSnrPercent 10 - 46.4286| ≤ 1e-3 := by
  have h10 : getRxSnrPercent 10 = 46.42859 := by unfold getRxSnrPercent; norm_num
  refine ⟨fun hx hxy => ?_, fun hx hxy => ?_, fun hx hxy => ?_,
    fun hx hxy => ?_, fun hx hxy => ?_, fun h => ?_, fun h => ?_,
    fun h => ?_, fun h => ?_, fun h => ?_,
    by unfold getRxSnrPercent; norm_num,
    by rw [h10, abs_le]; constructor <;> norm_num⟩ <;>
    simp only [getCableAttenuationPercent, getRxPwrPercent, getRxSnrPercent,
      getTxIfPwrPercent, getTxRfPwrPercent] <;>
    first
      | exact if_neg (not_le.mpr h)
      | (rw [if_pos hx, if_pos (le_trans hx hxy)]; nlinarith)

/-- Closed-instance witness for `percent_monotone_above_knee`. -/
theorem percent_monotone_above_knee_witness :
    getRxSnrPercent 0 ≤ getRxSnrPercent 10 ∧ getTxIfPwrPercent (-40) = 0 :=
  ⟨(percent_monotone_above_knee 0 10).2.2.1 (by norm_num) (by norm_num),
   (percent_monotone_above_knee (-40) 0).2.2.2.2.2.2.2.2.1 (by norm_num)⟩

/-! ## dBm → Watts conversion and power-string rendering
    (SurfBeam2.cpp lines 95-147)

`convertDbmToWatts` computes a transcendental power, so this part of the
embedding lives over `ℝ` (the idealized value of the C++ `double`
computation).  `QString::number(x, 'f', p)` is modeled by rounding
`x * 10^p` to an integer and rendering it with a decimal point before
the last `p` digits. -/

/-- Render a signed integer `n` as a fixed-point decimal with `p` digits
after the point (the digits of `n` are the concatenated integer and
fraction digits). -/
def renderFixedInt (n : ℤ) (p : Nat) : String :=
  let sign := if n < 0 then "-" else ""
  let m := n.natAbs
  if p = 0 then sign ++ toString m
  else
    let q := m / 10 ^ p
    let r := m % 10 ^ p
    let rs := toString r
    sign ++ toString q ++ "." ++ String.mk (List.replicate (p - rs.length) '0') ++ rs

/-- Model of `QString::number(x, 'f', p)`. -/
noncomputable def formatFixed (x : ℝ) (p : Nat) : String :=
  renderFixedInt (round (x * 10 ^ p)) p

/-- Drop trailing `'0'` characters. -/
def trimZeros (l : List Char) : List Char :=
  (l.reverse.dropWhile (fun c => c = '0')).reverse

/-- Scientific-notation rendering of a mantissa digit string and a
decimal exponent, with the mantissa's trailing zeros trimmed and the
exponent padded to two digits, as the C `'g'` conversion renders the
tiny magnitudes that reach it in this code. -/
def renderScientific (m : Nat) (e : ℤ) : String :=
  let ds := (toString m).data
  let frac := trimZeros ds.tail
  String.mk (ds.take 1) ++ (if frac.isEmpty then "" else "." ++ String.mk frac) ++
    "e" ++ (if e < 0 then "-" else "+") ++
    (if e.natAbs < 10 then "0" else "") ++ toString e.natAbs

/-- Model of `QString::number(x, 'g', sig)` on the inputs that reach it
in `convertDbmToQstring` (magnitudes below `1e-15`, which the `'g'`
conversion always renders in scientific notation). -/
noncomputable def formatGeneral (x : ℝ) (sig : Nat) : String :=
  if x = 0 then "0"
  else
    let e : ℤ := ⌊Real.logb 10 |x|⌋
    let m : ℤ := round (|x| * (10 : ℝ) ^ ((sig : ℤ) - 1 - e))
    (if x < 0 then "-" else "") ++ renderScientific m.natAbs e

/-- Model of `SurfBeam2::convertDbmToWatts`: `pow( 10.0, 0.1 * ( aDbm - 30.0 ) )`. -/
noncomputable def convertDbmToWatts (aDbm : ℝ) : ℝ :=
  (10 : ℝ) ^ (0.1 * (aDbm - 30.0))

/-- Model of `SurfBeam2::convertDbmToQstring`: auto-scaled rendering of the power
with unit suffixes W, mW, μW (`MU_SMALL + "W"`), nW, pW, fW. -/
noncomputable def convertDbmToQstring (aDbm : ℝ) : String :=
  let pwrWatts := convertDbmToWatts aDbm
  if 1.0 ≤ |pwrWatts| then formatFixed pwrWatts 3 ++ " W"
  else if 1.0e-3 ≤ |pwrWatts| then formatFixed (pwrWatts * 1.0e3) 1 ++ " mW"
  else if 1.0e-6 ≤ |pwrWatts| then formatFixed (pwrWatts * 1.0e6) 1 ++ " μW"
  else if 1.0e-9 ≤ |pwrWatts| then formatFixed (pwrWatts * 1.0e9) 1 ++ " nW"
  else if 1.0e-12 ≤ |pwrWatts| then formatFixed (pwrWatts * 1.0e12) 1 ++ " pW"
  else if 1.0e-15 ≤ |pwrWatts| then formatFixed (pwrWatts * 1.0e15) 1 ++ " fW"
  else formatGeneral pwrWatts 3 ++ " W"

/-- Evaluation `convertDbmToWatts 30 = 1` (since `10^0 = 1`). -/
lemma convertDbmToWatts_30 : convertDbmToWatts 30 = 1 := by
  unfold convertDbmToWatts
  have h : (0.1 : ℝ) * (30 - 30.0) = 0 := by norm_num
  rw [h, Real.rpow_zero]

/-- Evaluation `convertDbmToWatts (-30) = 10 ^ (-6) = 1e-6`. -/
lemma convertDbmToWatts_neg30 : convertDbmToWatts (-30) = 1e-6 := by
  unfold convertDbmToWatts
  have h : (0.1 : ℝ) * (-30 - 30.0) = ((-6 : ℤ) : ℝ) := by norm_num
  rw [h, Real.rpow_intCast]
  norm_num

/-- Evaluation `convertDbmToQstring 30 = "1.000 W"`. -/
lemma convertDbmToQstring_30 : convertDbmToQstring 30 = "1.000 W" := by
  simp only [convertDbmToQstring, convertDbmToWatts_30]
  rw [if_pos (by rw [abs_one]; norm_num)]
  have h : (1 : ℝ) * 10 ^ (3 : Nat) = ((1000 : ℤ) : ℝ) := by norm_num
  unfold formatFixed
  rw [h, round_intCast]
  decide

/-- Evaluation `convertDbmToQstring (-30) = "1.0 μW"` (`-30` dBm is one microwatt). -/
lemma convertDbmToQstring_neg30 : convertDbmToQstring (-30) = "1.0 μW" := by
  simp only [convertDbmToQstring, convertDbmToWatts_neg30]
  have habs : |(1e-6 : ℝ)| = 1e-6 := abs_of_nonneg (by norm_num)
  rw [habs, if_neg (by norm_num), if_neg (by norm_num), if_pos (by norm_num)]
  have h : (1e-6 : ℝ) * 1.0e6 * 10 ^ (1 : Nat) = ((10 : ℤ) : ℝ) := by norm_num
  unfold formatFixed
  rw [h, round_intCast]
  decide

/-- C5 counterexample: the claim asserts `convertDbmToQstring(-30.0)`
renders as `"1.0 mW"`; on the code, `-30` dBm is `10^(-6)` W = 1 μW, and
the rendered string is `"1.0 μW"`. -/
theorem convertDbm_neg30_not_mW : convertDbmToQstring (-30) ≠ "1.0 mW" := by
  rw [convertDbmToQstring_neg30]
  decide

/-- C5 (amended): `convertDbmToWatts(30.0) = 1.0`,
`convertDbmToQstring(30.0) = "1.000 W"`, and
`convertDbmToQstring(-30.0) = "1.0 μW"` (one microwatt, not one
milliwatt). -/
theorem convertDbm_reference_values :
    convertDbmToWatts 30 = 1 ∧ convertDbmToQstring 30 = "1.000 W" ∧
    convertDbmToQstring (-30) = "1.0 μW" :=
  ⟨convertDbmToWatts_30, convertDbmToQstring_30, convertDbmToQstring_neg30⟩

/-- The spec's unit table: threshold in Watts (the size of one unit),
number of decimal places, and suffix, in descending unit order
W, mW, μW, nW, pW, fW. -/
noncomputable def specUnitTable : List (ℝ × Nat × String) :=
  [(1.0, 3, " W"), (1.0e-3, 1, " mW"), (1.0e-6, 1, " μW"),
   (1.0e-9, 1, " nW"), (1.0e-12, 1, " pW"), (1.0e-15, 1, " fW")]

open Classical in
/-- Modelled from the spec: render a power by choosing the largest unit
in which the magnitude is at least 1, descending through the unit list;
format the magnitude in that unit with the unit's decimal places (3 for
W, 1 for every sub-multiple); below 1 fW fall back to the
3-significant-digit general format. -/
noncomputable def specRenderPower (w : ℝ) : String :=
  match specUnitTable.find? (fun u => decide (u.1 ≤ |w|)) with
  | some u => formatFixed (w / u.1) u.2.1 ++ u.2.2
  | none => formatGeneral w 3 ++ " W"

/-- C6: for every dBm input, `convertDbmToQstring` computes the power as
`10^(0.1*(dBm-30))` Watts and renders it exactly as the spec's
descending-unit auto-scaling describes: the first unit (W, mW, μW, nW,
pW, fW, in that order) whose threshold the magnitude reaches is used,
with 3 decimals for W and 1 decimal for sub-multiples, and the
3-significant-digit general format below 1 fW. -/
theorem convertDbm_render_refines_spec (aDbm : ℝ) :
    convertDbmToQstring aDbm = specRenderPower (convertDbmToWatts aDbm) := by
  unfold convertDbmToQstring specRenderPower specUnitTable
  set w := convertDbmToWatts aDbm with hw
  by_cases h1 : (1.0 : ℝ) ≤ |w|
  · rw [if_pos h1]
    simp only [List.find?, h1, decide_True]
    have e1 : w / (1.0 : ℝ) = w := by norm_num
    rw [e1]
  · rw [if_neg h1]
    by_cases h2 : (1.0e-3 : ℝ) ≤ |w|
    · rw [if_pos h2]
      simp only [List.find?, h1, h2, decide_True, decide_False]
      have e2 : w / (1.0e-3 : ℝ) = w * 1.0e3 := by
        rw [div_eq_mul_inv]; congr 1; norm_num
      rw [e2]
    · rw [if_neg h2]
      by_cases h3 : (1.0e-6 : ℝ) ≤ |w|
      · rw [if_pos h3]
        simp only [List.find?, h1, h2, h3, decide_True, decide_False]
        have e3 : w / (1.0e-6 : ℝ) = w * 1.0e6 := by
          rw [div_eq_mul_inv]; congr 1; norm_num
        rw [e3]
      · rw [if_neg h3]
        by_cases h4 : (1.0e-9 : ℝ) ≤ |w|
        · rw [if_pos h4]
          simp only [List.find?, h1, h2, h3, h4, decide_True, decide_False]
          have e4 : w / (1.0e-9 : ℝ) = w * 1.0e9 := by
            rw [div_eq_mul_inv]; congr 1; norm_num
          rw [e4]
        · rw [if_neg h4]
          by_cases h5 : (1.0e-12 : ℝ) ≤ |w|
          · rw [if_pos h5]
            simp only [List.find?, h1, h2, h3, h4, h5, decide_True, decide_False]
            have e5 : w / (1.0e-12 : ℝ) = w * 1.0e12 := by
              rw [div_eq_mul_inv]; congr 1; norm_num
            rw [e5]
          · rw [if_neg h5]
            by_cases h6 : (1.0e-15 : ℝ) ≤ |w|
            · rw [if_pos h6]
              simp only [List.find?, h1, h2, h3, h4, h5, h6, decide_True, decide_False]
              have e6 : w / (1.0e-15 : ℝ) = w * 1.0e15 := by
                rw [div_eq_mul_inv]; congr 1; norm_num
              rw [e6]
            · rw [if_neg h6]
              simp only [List.find?, h1, h2, h3, h4, h5, h6, decide_False]

/-! ## Categorical decoding (C7) -/

/-- Modelled from the spec: ordered keyword-table lookup — the first
keyword (in list order) contained case-insensitively in the value
determines the category member; no match yields the default member. -/
def firstMatchCat {α : Type} (table : List (String × α)) (dflt : α) (s : String) : α :=
  match table.find? (fun kv => qContainsCI s kv.1) with
  | some kv => kv.2
  | none => dflt

/-- The ordered modem-status keyword list of `updateModemInfo`. -/
def modemStatusKeywordTable : List (String × ModemState) :=
  [("scanning", ModemState.MODEM_STATE_SCANNING),
   ("ranging", ModemState.MODEM_STATE_RANGING),
   ("network", ModemState.MODEM_STATE_NETWORK_ENTRY),
   ("dhcp", ModemState.MODEM_STATE_DHCP),
   ("online", ModemState.MODEM_STATE_ONLINE)]

/-- The ordered beam-color keyword list of `updateModemInfo` /
`updateTriaInfo`. -/
def beamColorKeywordTable : List (String × SatelliteStatusBeamColor) :=
  [("blue", SatelliteStatusBeamColor.SATELLITE_STATUS_BEAM_COLOR_BLUE),
   ("orange", SatelliteStatusBeamColor.SATELLITE_STATUS_BEAM_COLOR_ORANGE),
   ("purple", SatelliteStatusBeamColor.SATELLITE_STATUS_BEAM_COLOR_PURPLE),
   ("green", SatelliteStatusBeamColor.SATELLITE_STATUS_BEAM_COLOR_GREEN)]

/-- C7: categorical decoding is the ordered case-insensitive substring
match of the spec: both decoders equal the first-match table lookup on
every input; a status field that lower-cases to `"online"` (i.e.
`"ONLINE"` in any letter case) decodes to the Online state; and a value
containing none of the keywords decodes to the Unknown member (never an
error — the decoders are total functions). -/
theorem categorical_decode_first_match (s : String) :
    decodeModemStatus s =
      firstMatchCat modemStatusKeywordTable ModemState.MODEM_STATE_UNKNOWN s ∧
    decodeBeamColor s =
      firstMatchCat beamColorKeywordTable
        SatelliteStatusBeamColor.SATELLITE_STATUS_BEAM_COLOR_UNKNOWN s ∧
    (strToLower s = "online" → decodeModemStatus s = ModemState.MODEM_STATE_ONLINE) ∧
    (qContainsCI s "scanning" = false → qContainsCI s "ranging" = false →
      qContainsCI s "network" = false → qContainsCI s "dhcp" = false →
      qContainsCI s "online" = false →
      decodeModemStatus s = ModemState.MODEM_STATE_UNKNOWN) ∧
    (qContainsCI s "blue" = false → qContainsCI s "orange" = false →
      qContainsCI s "purple" = false → qContainsCI s "green" = false →
      decodeBeamColor s =
        SatelliteStatusBeamColor.SATELLITE_STATUS_BEAM_COLOR_UNKNOWN) := by
  refine ⟨?_, ?_, ?_, ?_, ?_⟩
  · unfold decodeModemStatus firstMatchCat modemStatusKeywordTable
    simp only [List.find?]
    cases qContainsCI s "scanning" <;> cases qContainsCI s "ranging" <;>
      cases qContainsCI s "network" <;> cases qContainsCI s "dhcp" <;>
      cases qContainsCI s "online" <;> simp
  · unfold decodeBeamColor firstMatchCat beamColorKeywordTable
    simp only [List.find?]
    cases qContainsCI s "blue" <;> cases qContainsCI s "orange" <;>
      cases qContainsCI s "purple" <;> cases qContainsCI s "green" <;> simp
  · intro h
    rw [strToLower] at h
    have hl : lowerChars s.data = "online".data := congrArg String.data h
    unfold decodeModemStatus qContainsCI
    rw [hl]
    decide
  · intro h1 h2 h3 h4 h5
    simp [decodeModemStatus, h1, h2, h3, h4, h5]
  · intro h1 h2 h3 h4
    simp [decodeBeamColor, h1, h2, h3, h4]

/-- Closed-instance witness for `categorical_decode_first_match`. -/
theorem categorical_decode_first_match_witness :
    decodeModemStatus "OnLiNe" = ModemState.MODEM_STATE_ONLINE ∧
    decodeBeamColor "mauve" =
      SatelliteStatusBeamColor.SATELLITE_STATUS_BEAM_COLOR_UNKNOWN :=
  ⟨(categorical_decode_first_match "OnLiNe").2.2.1 (by decide),
   (categorical_decode_first_match "mauve").2.2.2.2
     (by decide) (by decide) (by decide) (by decide)⟩

/-! ## Counter and percentage field decode rules (C2, C8) -/

/-- An 81-field modem list whose counter slots (indices 5-8: Rx packets,
Rx bytes, Tx packets, Tx bytes) hold the four given strings and whose
other fields are empty. -/
def counterProbeList (s5 s6 s7 s8 : String) : List String :=
  List.replicate 5 "" ++ s5 :: s6 :: s7 :: s8 :: List.replicate 72 ""

/-- An 81-field modem list whose percentage slots (indices 12, 15, 17,
20: Rx SNR %, Rx power %, cable resistance %, cable attenuation %) hold
the four given strings and whose other fields are empty. -/
def percentProbeList (s12 s15 s17 s20 : String) : List String :=
  List.replicate 12 "" ++
    s12 :: "" :: "" :: s15 :: "" :: s17 :: "" :: "" :: s20 :: List.replicate 60 ""

/-- C2 counterexample: the claim asserts that a counter field that is
non-numeric after comma-stripping makes the decode fail with
`NumericFormatError` rather than silently storing zero.  The code calls
`QString::toULongLong()` with no `ok` pointer, which returns `0` on
failure and signals nothing: decoding an 81-field response whose
Rx-packets field is `"12,3x4"` completes normally (the other fields are
decoded) and stores `RxPackets = 0`. -/
theorem counter_parse_silent_zero_counterexample :
    (updateModemInfo initModemInfo
        ("1.2.3.4" :: List.replicate 4 "" ++ "12,3x4" :: List.replicate 75 "")).RxPackets
      = 0 ∧
    (updateModemInfo initModemInfo
        ("1.2.3.4" :: List.replicate 4 "" ++ "12,3x4" :: List.replicate 75 "")).IpAddress
      = "1.2.3.4" := by
  constructor
  · rfl
  · rfl

/-- C2 (amended): for the unsigned-integer-with-grouping fields (modem
indices 5-8), decoding removes every `','` character and parses the
remainder with `QString::toULongLong()`; a remainder that is non-numeric
after stripping silently yields `0` (no error is surfaced — the spec's
`NumericFormatError` is a deliberate tightening that the code does not
implement). -/
theorem counter_fields_strip_commas (m : ModemInfo) (s5 s6 s7 s8 : String) :
    (updateModemInfo m (counterProbeList s5 s6 s7 s8)).RxPackets
      = qtToULongLong (qRemoveChar ',' s5) ∧
    (updateModemInfo m (counterProbeList s5 s6 s7 s8)).RxBytes
      = qtToULongLong (qRemoveChar ',' s6) ∧
    (updateModemInfo m (counterProbeList s5 s6 s7 s8)).TxPackets
      = qtToULongLong (qRemoveChar ',' s7) ∧
    (updateModemInfo m (counterProbeList s5 s6 s7 s8)).TxBytes
      = qtToULongLong (qRemoveChar ',' s8) ∧
    qtToULongLong (qRemoveChar ',' "1,234,567") = 1234567 ∧
    qtToULongLong (qRemoveChar ',' "12,3x4") = 0 :=
  ⟨rfl, rfl, rfl, rfl, by decide, by decide⟩

/-- C8 counterexample: the claim asserts that the unsigned-16-bit parse
of the `'%'`-stripped field becomes the stored value of the record's
percent field.  The record fields are `uint8_t`, so the `toUShort`
result is truncated mod 256 on store: field `"300%"` parses to 300 but
stores 44.  Moreover the code removes every `'%'`, not only a trailing
one: field `"3%0%"` stores 30, while stripping only the trailing `'%'`
would leave `"3%0"`, which parses to 0. -/
theorem percent_field_truncation_counterexample :
    (updateModemInfo initModemInfo (percentProbeList "300%" "" "" "")).RxSnrPercent = 44 ∧
    qtToUShort "300" = 300 ∧
    (updateModemInfo initModemInfo (percentProbeList "3%0%" "" "" "")).RxSnrPercent = 30 ∧
    qtToUShort "3%0" = 0 := by
  refine ⟨rfl, by decide, rfl, by decide⟩

/-- C8 (amended): for the percentage fields (modem indices 12, 15, 17,
20), decoding removes every `'%'` character, parses the remainder with
`QString::toUShort()` (unsigned 16-bit, `0` on failure), and stores the
result into an 8-bit record field, truncating it mod 256; values in
0-100 are expected but not range-checked (they pass through unchanged,
as 0-100 < 256 < 2^16). -/
theorem percent_fields_remove_percent_truncate (m : ModemInfo) (s12 s15 s17 s20 : String) :
    (updateModemInfo m (percentProbeList s12 s15 s17 s20)).RxSnrPercent
      = qtToUShort (qRemoveChar '%' s12) % 2 ^ 8 ∧
    (updateModemInfo m (percentProbeList s12 s15 s17 s20)).RxPwrPercent
      = qtToUShort (qRemoveChar '%' s15) % 2 ^ 8 ∧
    (updateModemInfo m (percentProbeList s12 s15 s17 s20)).CableResistancePercent
      = qtToUShort (qRemoveChar '%' s17) % 2 ^ 8 ∧
    (updateModemInfo m (percentProbeList s12 s15 s17 s20)).CableAttenuationPercent
      = qtToUShort (qRemoveChar '%' s20) % 2 ^ 8 ∧
    qtToUShort (qRemoveChar '%' "42%") % 2 ^ 8 = 42 :=
  ⟨rfl, rfl, rfl, rfl, by decide⟩

/-! ## Schema-count guard (C1) and record separation (C10) -/

/-- An 81-field raw modem response whose first field is `"x"`. -/
def modemRaw81 : String :=
  String.intercalate "##" ("x" :: List.replicate 80 "")

/-- An 84-field raw TRIA response whose first field is `"x"`. -/
def triaRaw84 : String :=
  String.intercalate "##" ("x" :: List.replicate 83 "")

/-- C1: a modem response whose `"##"`-segment count differs from 81
(resp. a TRIA response whose segment count differs from 84) leaves the
previously held record completely unchanged — the count mismatch is the
code's `SchemaMismatch` outcome, signalled by skipping the update — and
the record is replaced (by `updateModemInfo` / `updateTriaInfo` applied
to the segments) exactly when the count matches. -/
theorem schema_mismatch_leaves_record (oldM : ModemInfo) (oldT : TriaInfo)
    (rawM rawT : String) :
    ((splitFields rawM).length ≠ FIELD_COUNT_MODEM →
      httpFinishedModem oldM rawM = oldM) ∧
    ((splitFields rawM).length = FIELD_COUNT_MODEM →
      httpFinishedModem oldM rawM = updateModemInfo oldM (splitFields rawM)) ∧
    ((splitFields rawT).length ≠ FIELD_COUNT_TRIA →
      httpFinishedTria oldT rawT = oldT) ∧
    ((splitFields rawT).length = FIELD_COUNT_TRIA →
      httpFinishedTria oldT rawT = updateTriaInfo oldT (splitFields rawT)) := by
  refine ⟨fun h => ?_, fun h => ?_, fun h => ?_, fun h => ?_⟩ <;>
    simp [httpFinishedModem, httpFinishedTria, h]

/-- Closed-instance witness for `schema_mismatch_leaves_record`: a
2-field modem response and a 1-field TRIA response leave the records
unchanged; full 81- and 84-field responses decode. -/
theorem schema_mismatch_leaves_record_witness :
    httpFinishedModem initModemInfo "a##b" = initModemInfo ∧
    httpFinishedTria initTriaInfo "y" = initTriaInfo ∧
    httpFinishedModem initModemInfo modemRaw81
      = updateModemInfo initModemInfo (splitFields modemRaw81) ∧
    httpFinishedTria initTriaInfo triaRaw84
      = updateTriaInfo initTriaInfo (splitFields triaRaw84) :=
  ⟨(schema_mismatch_leaves_record initModemInfo initTriaInfo "a##b" "y").1
      (by decide),
   (schema_mismatch_leaves_record initModemInfo initTriaInfo "a##b" "y").2.2.1
      (by decide),
   (schema_mismatch_leaves_record initModemInfo initTriaInfo modemRaw81 triaRaw84).2.1
      (by decide),
   (schema_mismatch_leaves_record initModemInfo initTriaInfo modemRaw81 triaRaw84).2.2.2
      (by decide)⟩

/-- The two records held by the `SurfBeam2` object (`mModemInfo`,
`mTriaInfo`). -/
structure SB2Records where
  mModemInfo : ModemInfo
  mTriaInfo : TriaInfo
  deriving DecidableEq, Repr

/-- Model of `SurfBeam2::updateModemInfo` at the level of the object's two
records: only the member `mModemInfo` is written. -/
def updateModemInfoR (s : SB2Records) (l : List String) : SB2Records :=
  { s with mModemInfo := updateModemInfo s.mModemInfo l }

/-- Model of `SurfBeam2::updateTriaInfo` at the level of the object's two
records: only the member `mTriaInfo` is written. -/
def updateTriaInfoR (s : SB2Records) (l : List String) : SB2Records :=
  { s with mTriaInfo := updateTriaInfo s.mTriaInfo l }

/-- C10: decoding a modem response never modifies any field of the TRIA
record and decoding a TRIA response never modifies any field of the
modem record; each decoder rewrites only its own pipeline's record. -/
theorem decoder_frame_separation (s : SB2Records) (l : List String) :
    (updateModemInfoR s l).mTriaInfo = s.mTriaInfo ∧
    (updateModemInfoR s l).mModemInfo = updateModemInfo s.mModemInfo l ∧
    (updateTriaInfoR s l).mModemInfo = s.mModemInfo ∧
    (updateTriaInfoR s l).mTriaInfo = updateTriaInfo s.mTriaInfo l :=
  ⟨rfl, rfl, rfl, rfl⟩

/-! ## Poll pipeline event semantics (C9)

The Qt event loop is single-threaded and cooperative, so the polling
pipeline is modeled as a state machine driven by a sequence of events.
Each `startCgiRequest` tick creates a fresh `QNetworkReply`; replies are
identified by their creation generation.  The accumulated bytes are
modeled as character lists.  The modem pipeline is modeled; the TRIA
pipeline is structurally identical (same slots, count 84,
`updateTriaInfo`). -/

/-- Split a character list on the `"##"` delimiter. -/
def splitFieldsChars (l : List Char) : List String :=
  splitFieldsAux [] l

/-- An event of the polling pipeline's event loop: `tick` is a timer
tick running `startCgiRequest` (a new reply — a new generation — is
created and becomes the tracked `mReplyModem`, and `mByteArrayModem` is
cleared); `deliver g c` is the network delivering chunk `c` to the reply
of generation `g`, which fires that reply's `readyRead` signal;
`finish g` is generation `g`'s reply firing `finished`. -/
inductive PollEvent
  | tick
  | deliver (g : Nat) (c : List Char)
  | finish (g : Nat)

/-- The modem pipeline state: `gen` is the generation of the currently
tracked reply (`mReplyModem`), `unread g` the delivered-but-unread bytes
buffered inside reply object `g`, `buffer` the accumulation member
`mByteArrayModem`, and `record` the member `mModemInfo`. -/
structure PollState where
  gen : Nat
  unread : Nat → List Char
  buffer : List Char
  record : ModemInfo

/-- Initial pipeline state: the constructor issues the generation-0
request with an empty buffer; `r0` is the startup record. -/
def initPoll (r0 : ModemInfo) : PollState :=
  { gen := 0, unread := fun _ => [], buffer := [], record := r0 }

/-- One event step, faithful to the slots in the code:
`httpReadyReadModem` runs `mByteArrayModem += mReplyModem->readAll()`,
i.e. it drains the bytes of the *tracked* reply (the current
generation), no matter which reply's `readyRead` signal fired;
`httpFinishedModem` splits the accumulation buffer and updates the
record only on an exact field count, again regardless of which reply
finished (the slot never consults the sender).  The
`mReplyModem->deleteLater()` call affects only reply-object lifetime,
not the record, and is not modeled. -/
def pollStep (s : PollState) : PollEvent → PollState
  | PollEvent.tick =>
      { gen := s.gen + 1, unread := s.unread, buffer := [], record := s.record }
  | PollEvent.deliver g c =>
      let u1 : Nat → List Char := fun n => if n = g then s.unread n ++ c else s.unread n
      { gen := s.gen
        unread := fun n => if n = s.gen then [] else u1 n
        buffer := s.buffer ++ u1 s.gen
        record := s.record }
  | PollEvent.finish _ =>
      let fields := splitFieldsChars s.buffer
      if fields.length = FIELD_COUNT_MODEM
      then { s with record := updateModemInfo s.record fields }
      else s

/-- Run a list of events from a state. -/
def pollRun (s : PollState) : List PollEvent → PollState
  | [] => s
  | e :: es => pollRun (pollStep s e) es

/-- Trace well-formedness from current generation `g`: deliveries and
completions only come from replies that already exist (generation at
most the current one). -/
def wfFromB : Nat → List PollEvent → Bool
  | _, [] => true
  | g, PollEvent.tick :: es => wfFromB (g + 1) es
  | g, PollEvent.deliver h _ :: es => decide (h ≤ g) && wfFromB g es
  | g, PollEvent.finish h :: es => decide (h ≤ g) && wfFromB g es

/-- Number of timer ticks in a trace. -/
def countTicks : List PollEvent → Nat
  | [] => 0
  | PollEvent.tick :: es => countTicks es + 1
  | _ :: es => countTicks es

/-- The chunks delivered to the reply of generation `n`, in order. -/
def chunksTo (n : Nat) : List PollEvent → List (List Char)
  | [] => []
  | PollEvent.deliver g c :: es =>
      if g = n then c :: chunksTo n es else chunksTo n es
  | _ :: es => chunksTo n es

/-- Concatenation of delivered chunks. -/
def concatChunks : List (List Char) → List Char
  | [] => []
  | c :: l => c ++ concatChunks l

/-- Pipeline invariant: after any well-formed trace, the tracked
generation has advanced by the number of ticks, every reply at or above
the tracked generation has an empty internal buffer, and the
accumulation buffer consists exactly of the chunks delivered to the
tracked (newest) generation, in order — bytes of superseded replies
never enter it after a tick. -/
lemma pollRun_inv (es : List PollEvent) : ∀ s : PollState,
    (∀ m, s.gen ≤ m → s.unread m = []) → wfFromB s.gen es = true →
    (pollRun s es).gen = s.gen + countTicks es ∧
    (∀ m, (pollRun s es).gen ≤ m → (pollRun s es).unread m = []) ∧
    (pollRun s es).buffer =
      (if countTicks es = 0 then s.buffer else []) ++
        concatChunks (chunksTo (pollRun s es).gen es) := by
  induction es with
  | nil =>
      intro s hu _
      refine ⟨by simp [pollRun, countTicks], fun m hm => hu m hm, ?_⟩
      simp [pollRun, countTicks, chunksTo, concatChunks]
  | cons e es ih =>
      intro s hu hwf
      cases e with
      | tick =>
          have hu1 : ∀ m, (pollStep s PollEvent.tick).gen ≤ m →
              (pollStep s PollEvent.tick).unread m = [] := by
            intro m hm
            simp only [pollStep] at hm ⊢
            exact hu m (by omega)
          have hwf1 : wfFromB (pollStep s PollEvent.tick).gen es = true := by
            simpa [pollStep, wfFromB] using hwf
          obtain ⟨hgen, hu2, hb⟩ := ih (pollStep s PollEvent.tick) hu1 hwf1
          simp only [pollRun]
          refine ⟨?_, hu2, ?_⟩
          · rw [hgen]; simp [pollStep, countTicks]; omega
          · rw [hb]
            simp only [pollStep, countTicks, chunksTo]
            rw [ite_self]
            rw [if_neg (by omega : ¬ countTicks es + 1 = 0)]
      | deliver g c =>
          have hgle : g ≤ s.gen ∧ wfFromB s.gen es = true := by
            simpa [wfFromB, Bool.and_eq_true] using hwf
          have hsgu : s.unread s.gen = [] := hu s.gen le_rfl
          have hu1 : ∀ m, (pollStep s (PollEvent.deliver g c)).gen ≤ m →
              (pollStep s (PollEvent.deliver g c)).unread m = [] := by
            intro m hm
            simp only [pollStep] at hm ⊢
            by_cases hmg : m = s.gen
            · simp [hmg]
            · have hlt : s.gen < m := lt_of_le_of_ne hm (fun h => hmg h.symm)
              have hne : ¬ m = g := by omega
              simp [hmg, hne, hu m (le_of_lt hlt)]
          have hbuf1 : (pollStep s (PollEvent.deliver g c)).buffer
              = s.buffer ++ (if s.gen = g then c else []) := by
            simp only [pollStep]
            rw [hsgu]
            by_cases hgg : s.gen = g <;> simp [hgg]
          obtain ⟨hgen, hu2, hb⟩ := ih (pollStep s (PollEvent.deliver g c)) hu1 hgle.2
          simp only [pollRun]
          have hgen' : (pollRun (pollStep s (PollEvent.deliver g c)) es).gen
              = s.gen + countTicks es := by
            rw [hgen]; rfl
          refine ⟨by rw [hgen']; simp [countTicks], hu2, ?_⟩
          simp only [countTicks, chunksTo]
          by_cases hT : countTicks es = 0
          · have hg0 : (pollRun (pollStep s (PollEvent.deliver g c)) es).gen = s.gen := by
              rw [hgen', hT]
              omega
            rw [hb, if_pos hT, hbuf1, hg0, if_pos hT]
            by_cases hgg : g = s.gen
            · rw [if_pos hgg, if_pos hgg.symm]
              simp [concatChunks, List.append_assoc]
            · rw [if_neg hgg, if_neg (fun h => hgg h.symm)]
              simp
          · have hgne : ¬ g = (pollRun (pollStep s (PollEvent.deliver g c)) es).gen := by
              rw [hgen']
              have := hgle.1
              omega
            rw [hb, if_neg hT, if_neg hT, if_neg hgne]
      | finish h =>
          have hgle : h ≤ s.gen ∧ wfFromB s.gen es = true := by
            simpa [wfFromB, Bool.and_eq_true] using hwf
          have hsg : (pollStep s (PollEvent.finish h)).gen = s.gen := by
            simp only [pollStep]; split <;> rfl
          have hsu : (pollStep s (PollEvent.finish h)).unread = s.unread := by
            simp only [pollStep]; split <;> rfl
          have hsb : (pollStep s (PollEvent.finish h)).buffer = s.buffer := by
            simp only [pollStep]; split <;> rfl
          have hu1 : ∀ m, (pollStep s (PollEvent.finish h)).gen ≤ m →
              (pollStep s (PollEvent.finish h)).unread m = [] := by
            intro m hm
            rw [hsu]
            exact hu m (hsg ▸ hm)
          obtain ⟨hgen, hu2, hb⟩ := ih (pollStep s (PollEvent.finish h)) hu1
            (by rw [hsg]; exact hgle.2)
          simp only [pollRun]
          refine ⟨by rw [hgen, hsg]; simp [countTicks], hu2, ?_⟩
          rw [hb, hsb]
          simp only [countTicks, chunksTo]

/-- C9: a `finished` signal — in particular a late one from a stale,
superseded reply (`g` below the tracked generation) — can only change
the record to the decode of data delivered to the *current* (newest)
generation.  The stale reply's own bytes are discarded: the slots only
ever read the tracked member reply, so once a new timer tick has
started a new cycle, a late response can never overwrite the record
produced or awaited by the newer cycle with stale data. -/
theorem stale_reply_never_overwrites (es : List PollEvent) (r0 : ModemInfo) (g : Nat)
    (hwf : wfFromB 0 es = true)
    (hchange : (pollStep (pollRun (initPoll r0) es) (PollEvent.finish g)).record
        ≠ (pollRun (initPoll r0) es).record) :
    (splitFieldsChars (concatChunks (chunksTo (pollRun (initPoll r0) es).gen es))).length
        = FIELD_COUNT_MODEM ∧
    (pollStep (pollRun (initPoll r0) es) (PollEvent.finish g)).record
      = updateModemInfo (pollRun (initPoll r0) es).record
          (splitFieldsChars (concatChunks (chunksTo (pollRun (initPoll r0) es).gen es))) := by
  obtain ⟨hgen, hu, hb⟩ := pollRun_inv es (initPoll r0) (fun m _ => rfl) hwf
  have hbuf : (pollRun (initPoll r0) es).buffer
      = concatChunks (chunksTo (pollRun (initPoll r0) es).gen es) := by
    rw [hb]
    simp [initPoll]
  by_cases hlen :
      (splitFieldsChars (pollRun (initPoll r0) es).buffer).length = FIELD_COUNT_MODEM
  · refine ⟨by rw [← hbuf]; exact hlen, ?_⟩
    simp only [pollStep]
    rw [if_pos hlen, hbuf]
  · exfalso
    apply hchange
    simp only [pollStep]
    rw [if_neg hlen]

/-- Closed-instance witness for `stale_reply_never_overwrites`: a single
cycle that receives a full 81-field response and then finishes. -/
theorem stale_reply_never_overwrites_witness :
    (splitFieldsChars (concatChunks (chunksTo
        (pollRun (initPoll initModemInfo) [PollEvent.deliver 0 modemRaw81.data]).gen
        [PollEvent.deliver 0 modemRaw81.data]))).length = FIELD_COUNT_MODEM ∧
    (pollStep (pollRun (initPoll initModemInfo) [PollEvent.deliver 0 modemRaw81.data])
        (PollEvent.finish 0)).record
      = updateModemInfo
          (pollRun (initPoll initModemInfo) [PollEvent.deliver 0 modemRaw81.data]).record
          (splitFieldsChars (concatChunks (chunksTo
            (pollRun (initPoll initModemInfo) [PollEvent.deliver 0 modemRaw81.data]).gen
            [PollEvent.deliver 0 modemRaw81.data]))) :=
  stale_reply_never_overwrites [PollEvent.deliver 0 modemRaw81.data] initModemInfo 0
    (by decide) (by decide)
